import Mathlib

/-!
Shallow embedding of `src/stores/ActiveWidgetStore.js` (class `ActiveWidgetStore`).

The store keeps four pieces of state:
  * `_persistentWidgetId : null | string`       -> `Option String`
  * `_capsByWidgetId : { widgetId: [caps...] }` -> association list `List (String × List String)`
  * `_widgetMessagingByWidgetId`                -> association list `List (String × WidgetMessaging)`
  * `_roomIdByWidgetId`                         -> association list `List (String × String)`

JavaScript plain objects used as maps have unique string keys and preserve
insertion order for non-integer-like keys; property assignment replaces the
value in place, property deletion removes the entry, and `obj[k]` yields
`undefined` (here `none`) when `k` is absent.  The association-list operations
`alGet` / `alSet` / `alDel` below implement exactly that behaviour (on
duplicate-key-free lists, which is the only shape a JS object can have).

Each method of the class is translated as a function from the store to a
`MethodOut`: the returned value, the updated store (`this` after the call),
the list of events emitted via `this.emit(...)` during the call, in order,
and the list of messages logged via `console.error`.  Methods whose bodies
contain no assignment and no `emit` call return the input store unchanged
with an empty emit list, mirroring the source.

`sendEventsToWidgets` can throw: when the loop body reaches a widget whose
capability/room check passes but which has no messaging entry, the JS
expression `this._widgetMessagingByWidgetId[widgetId].sendEvent(...)` is a
property access on `undefined` and raises a `TypeError`.  Its result is
modelled as the list of `sendEvent` calls performed before any such throw,
paired with `Option String`: `none` when the loop completed, `some msg`
when a `TypeError` escaped.  The external `sendEvent` push itself is
fire-and-forget and is recorded, not interpreted.
-/

/-- A WidgetMessaging collaborator handle.  The registry only ever calls
`stop()` (which may throw, carrying a message) and `sendEvent` /
`sendThemeUpdate` (fire-and-forget pushes).  `stopError = some msg` models a
`stop()` that throws an error whose `.message` is `msg`. -/
structure WidgetMessaging where
  stopError : Option String := none
deriving DecidableEq, Repr

/-- A matrix event as seen by this store: `ev.getType()`, `ev.getRoomId()`
(which may be `undefined`), and `ev.getStateKey()`. -/
structure MatrixEvent where
  type : String
  roomId : Option String := none
  stateKey : Option String := none
deriving DecidableEq, Repr

/-- One `sendEvent(ev, state, roomId)` call made on a widget's messaging
channel, tagged with the widget id it was sent to.  The opaque `state`
argument is passed through unchanged; it is modelled as a `Bool` flag. -/
structure Send where
  widgetId : String
  ev : MatrixEvent
  state : Bool
  roomId : Option String
deriving DecidableEq, Repr

/-- The mutable state of the `ActiveWidgetStore` singleton (constructor at
lines 30-50 of the source). -/
structure Store where
  persistentWidgetId : Option String
  capsByWidgetId : List (String × List String)
  widgetMessagingByWidgetId : List (String × WidgetMessaging)
  roomIdByWidgetId : List (String × String)
deriving DecidableEq, Repr

/-- The freshly constructed store: `null` persistent id, three empty maps. -/
def initialStore : Store := ⟨none, [], [], []⟩

/-- Outcome of one method call: return value, the store afterwards, the
`emit` events fired during the call (in order), and the `console.error`
messages logged. -/
structure MethodOut (α : Type) where
  ret : α
  store : Store
  emits : List String
  logs : List String

/-- `obj[k]` on a JS object used as a map: the bound value, or `none`
(`undefined`) when the key is absent. -/
def alGet {α : Type} : List (String × α) → String → Option α
  | [], _ => none
  | (k2, v) :: rest, k => if k2 = k then some v else alGet rest k

/-- `obj[k] = v` on a JS object: replaces the value in place when the key is
present, otherwise appends the new entry (JS insertion order). -/
def alSet {α : Type} : List (String × α) → String → α → List (String × α)
  | [], k, v => [(k, v)]
  | (k2, v2) :: rest, k, v =>
    if k2 = k then (k, v) :: rest else (k2, v2) :: alSet rest k v

/-- `delete obj[k]` on a JS object: removes the entry for `k` (all entries,
which coincides on the duplicate-free lists JS objects correspond to). -/
def alDel {α : Type} : List (String × α) → String → List (String × α)
  | [], _ => []
  | (k2, v2) :: rest, k =>
    if k2 = k then alDel rest k else (k2, v2) :: alDel rest k

/-- JS truthiness of a `string | undefined` value: `undefined` and the empty
string are the only falsy values of that type. -/
def jsFalsyOptStr : Option String → Bool
  | none => true
  | some s => s == ""

/-- JS coercion of a `string | null` value to an object property key:
`obj[null]` accesses the key `"null"`. -/
def jsKeyOfNullable : Option String → String
  | none => "null"
  | some s => s

/-- `setWidgetPersistence(widgetId, val)` (source lines 133-140).  The
`widgetId` argument is the raw JS value, which `destroyPersistentWidget`
may pass as `null` (`none`). -/
def setWidgetPersistence (s : Store) (widgetId : Option String) (val : Bool) : MethodOut Unit :=
  let s :=
    if s.persistentWidgetId = widgetId ∧ val = false then
      { s with persistentWidgetId := none }
    else if s.persistentWidgetId ≠ widgetId ∧ val = true then
      { s with persistentWidgetId := widgetId }
    else s
  ⟨(), s, ["update"], []⟩

/-- `getWidgetPersistence(widgetId)` (lines 142-144):
`this._persistentWidgetId === widgetId` for a string `widgetId`. -/
def getWidgetPersistence (s : Store) (widgetId : String) : MethodOut Bool :=
  ⟨decide (s.persistentWidgetId = some widgetId), s, [], []⟩

/-- `getPersistentWidgetId()` (lines 146-148). -/
def getPersistentWidgetId (s : Store) : MethodOut (Option String) :=
  ⟨s.persistentWidgetId, s, [], []⟩

/-- `setWidgetCapabilities(widgetId, caps)` (lines 150-153). -/
def setWidgetCapabilities (s : Store) (widgetId : String) (caps : List String) : MethodOut Unit :=
  ⟨(), { s with capsByWidgetId := alSet s.capsByWidgetId widgetId caps }, ["update"], []⟩

/-- `widgetHasCapability(widgetId, cap)` (lines 155-157):
`this._capsByWidgetId[widgetId] && this._capsByWidgetId[widgetId].includes(cap)`.
JS `&&` returns its left operand when that operand is falsy, so an unknown
widget id yields `undefined` (modelled `none`), not the boolean `false`;
a known id yields the boolean `caps.includes(cap)` (modelled `some b`). -/
def widgetHasCapability (s : Store) (widgetId cap : String) : MethodOut (Option Bool) :=
  match alGet s.capsByWidgetId widgetId with
  | none => ⟨none, s, [], []⟩
  | some caps => ⟨some (caps.contains cap), s, [], []⟩

/-- `delWidgetCapabilities(widgetId)` (lines 159-162): unconditional delete
and emit. -/
def delWidgetCapabilities (s : Store) (widgetId : String) : MethodOut Unit :=
  ⟨(), { s with capsByWidgetId := alDel s.capsByWidgetId widgetId }, ["update"], []⟩

/-- `setWidgetMessaging(widgetId, wm)` (lines 164-167). -/
def setWidgetMessaging (s : Store) (widgetId : String) (wm : WidgetMessaging) : MethodOut Unit :=
  ⟨(), { s with widgetMessagingByWidgetId := alSet s.widgetMessagingByWidgetId widgetId wm },
    ["update"], []⟩

/-- `getWidgetMessaging(widgetId)` (lines 169-171). -/
def getWidgetMessaging (s : Store) (widgetId : String) : MethodOut (Option WidgetMessaging) :=
  ⟨alGet s.widgetMessagingByWidgetId widgetId, s, [], []⟩

/-- `delWidgetMessaging(widgetId)` (lines 173-183): when a channel is bound,
`stop()` is attempted inside `try`/`catch` — a throw is logged via
`console.error('Failed to stop listening for widgetMessaging events', e.message)`
and swallowed — then the binding is deleted and `update` is emitted.  When no
channel is bound the method does nothing and emits nothing. -/
def delWidgetMessaging (s : Store) (widgetId : String) : MethodOut Unit :=
  match alGet s.widgetMessagingByWidgetId widgetId with
  | some wm =>
    let logs :=
      match wm.stopError with
      | some msg => ["Failed to stop listening for widgetMessaging events " ++ msg]
      | none => []
    ⟨(), { s with widgetMessagingByWidgetId := alDel s.widgetMessagingByWidgetId widgetId },
      ["update"], logs⟩
  | none => ⟨(), s, [], []⟩

/-- `getRoomId(widgetId)` (lines 185-187). -/
def getRoomId (s : Store) (widgetId : String) : MethodOut (Option String) :=
  ⟨alGet s.roomIdByWidgetId widgetId, s, [], []⟩

/-- `setRoomId(widgetId, roomId)` (lines 189-192). -/
def setRoomId (s : Store) (widgetId roomId : String) : MethodOut Unit :=
  ⟨(), { s with roomIdByWidgetId := alSet s.roomIdByWidgetId widgetId roomId }, ["update"], []⟩

/-- `delRoomId(widgetId)` (lines 194-197): unconditional delete and emit. -/
def delRoomId (s : Store) (widgetId : String) : MethodOut Unit :=
  ⟨(), { s with roomIdByWidgetId := alDel s.roomIdByWidgetId widgetId }, ["update"], []⟩

/-- `destroyPersistentWidget()` (lines 124-131): captures
`this._persistentWidgetId` once as `toDeleteId`, then runs the four
teardown calls on it.  The three map deletions receive the possibly-`null`
id, which JS coerces to the property key `"null"`. -/
def destroyPersistentWidget (s : Store) : MethodOut Unit :=
  let toDeleteId := s.persistentWidgetId
  let o1 := setWidgetPersistence s toDeleteId false
  let o2 := delWidgetMessaging o1.store (jsKeyOfNullable toDeleteId)
  let o3 := delWidgetCapabilities o2.store (jsKeyOfNullable toDeleteId)
  let o4 := delRoomId o3.store (jsKeyOfNullable toDeleteId)
  ⟨(), o4.store, o1.emits ++ o2.emits ++ o3.emits ++ o4.emits,
    o1.logs ++ o2.logs ++ o3.logs ++ o4.logs⟩

/-- `stop()` (lines 58-66): besides detaching the two matrix-client
listeners (external I/O on the collaborator, not store state), it resets
the three maps to fresh empty objects and leaves `_persistentWidgetId`
untouched.  No emit, no log. -/
def stop (s : Store) : MethodOut Unit :=
  ⟨(), { s with capsByWidgetId := [], widgetMessagingByWidgetId := [], roomIdByWidgetId := [] },
    [], []⟩

/-- The loop condition of `sendEventsToWidgets` (lines 78-79) for one
widget: `caps.includes(eventType) && (!this._roomIdByWidgetId[widgetId] ||
roomId === this._roomIdByWidgetId[widgetId])`.  Note the JS truthiness
test: an absent room id and an empty-string room id are both falsy. -/
def widgetMatches (s : Store) (ev : MatrixEvent) (widgetId : String) (caps : List String) : Bool :=
  caps.contains ev.type &&
    (jsFalsyOptStr (alGet s.roomIdByWidgetId widgetId) ||
      ev.roomId == alGet s.roomIdByWidgetId widgetId)

/-- The `for...in` loop of `sendEventsToWidgets` (lines 70-83) over the
entries of `_capsByWidgetId` (the `hasOwnProperty` guard is always true for
an entry being iterated).  For each entry passing `widgetMatches`, the call
`this._widgetMessagingByWidgetId[widgetId].sendEvent(ev, state, roomId)` is
recorded — unless that widget has no messaging entry, in which case the
property access on `undefined` throws a `TypeError`, aborting the loop;
sends already made stay made. -/
def sendEventsToWidgetsAux (s : Store) (ev : MatrixEvent) (state : Bool) :
    List (String × List String) → List Send × Option String
  | [] => ([], none)
  | (widgetId, caps) :: rest =>
    if widgetMatches s ev widgetId caps then
      match alGet s.widgetMessagingByWidgetId widgetId with
      | none => ([], some "TypeError: cannot read sendEvent of undefined")
      | some _ =>
        let r := sendEventsToWidgetsAux s ev state rest
        (⟨widgetId, ev, state, ev.roomId⟩ :: r.1, r.2)
    else sendEventsToWidgetsAux s ev state rest

/-- `sendEventsToWidgets(ev, state)` (lines 68-84): iterates the capability
map, mutates nothing, emits nothing; returns the sends performed and the
escaped `TypeError`, if any. -/
def sendEventsToWidgets (s : Store) (ev : MatrixEvent) (state : Bool) :
    MethodOut (List Send × Option String) :=
  ⟨sendEventsToWidgetsAux s ev state s.capsByWidgetId, s, [], []⟩

/-- The `for...in` loop of `sendThemeToWidgets` (lines 87-94): every widget
whose capability list contains the literal token `theme_update` gets a
`sendThemeUpdate(theme)` push; as in `sendEventsToWidgets`, a matching
widget with no messaging entry raises a `TypeError`. -/
def sendThemeToWidgetsAux (s : Store) (theme : String) :
    List (String × List String) → List (String × String) × Option String
  | [] => ([], none)
  | (widgetId, caps) :: rest =>
    if caps.contains "theme_update" then
      match alGet s.widgetMessagingByWidgetId widgetId with
      | none => ([], some "TypeError: cannot read sendThemeUpdate of undefined")
      | some _ =>
        let r := sendThemeToWidgetsAux s theme rest
        ((widgetId, theme) :: r.1, r.2)
    else sendThemeToWidgetsAux s theme rest

/-- `sendThemeToWidgets(theme)` (lines 86-95). -/
def sendThemeToWidgets (s : Store) (theme : String) :
    MethodOut (List (String × String) × Option String) :=
  ⟨sendThemeToWidgetsAux s theme s.capsByWidgetId, s, [], []⟩

/-! ### Association-list lemmas -/

theorem alGet_alSet_self {α : Type} (l : List (String × α)) (k : String) (v : α) :
    alGet (alSet l k v) k = some v := by
  induction l with
  | nil => simp [alSet, alGet]
  | cons p rest ih =>
    obtain ⟨k2, v2⟩ := p
    by_cases h : k2 = k <;> simp [alSet, alGet, h, ih]

theorem alGet_alDel_self {α : Type} (l : List (String × α)) (k : String) :
    alGet (alDel l k) k = none := by
  induction l with
  | nil => simp [alDel, alGet]
  | cons p rest ih =>
    obtain ⟨k2, v2⟩ := p
    by_cases h : k2 = k <;> simp [alDel, alGet, h, ih]

/-! ### Behaviour of `setWidgetPersistence` -/

theorem setWidgetPersistence_true_persistentWidgetId (s : Store) (x : String) :
    (setWidgetPersistence s (some x) true).store.persistentWidgetId = some x := by
  by_cases h : s.persistentWidgetId = some x <;> simp [setWidgetPersistence, h]

theorem setWidgetPersistence_maps (s : Store) (widgetId : Option String) (val : Bool) :
    (setWidgetPersistence s widgetId val).store.capsByWidgetId = s.capsByWidgetId ∧
    (setWidgetPersistence s widgetId val).store.widgetMessagingByWidgetId
      = s.widgetMessagingByWidgetId ∧
    (setWidgetPersistence s widgetId val).store.roomIdByWidgetId = s.roomIdByWidgetId := by
  unfold setWidgetPersistence
  split <;> [skip; split] <;> simp

/-! ### Characterisation of the forwarding loop -/

theorem sendEventsToWidgetsAux_complete (s : Store) (ev : MatrixEvent) (state : Bool)
    (l : List (String × List String))
    (hch : ∀ p ∈ l, widgetMatches s ev p.1 p.2 = true →
      (alGet s.widgetMessagingByWidgetId p.1).isSome = true) :
    sendEventsToWidgetsAux s ev state l =
      ((l.filter fun p => widgetMatches s ev p.1 p.2).map
        fun p => ⟨p.1, ev, state, ev.roomId⟩, none) := by
  induction l with
  | nil => simp [sendEventsToWidgetsAux]
  | cons p rest ih =>
    obtain ⟨w, caps⟩ := p
    have ihr := ih fun q hq hm => hch q (List.mem_cons_of_mem _ hq) hm
    by_cases hm : widgetMatches s ev w caps = true
    · have hs := hch (w, caps) (List.mem_cons_self _ _) hm
      obtain ⟨wm, hwm⟩ := Option.isSome_iff_exists.mp hs
      simp [sendEventsToWidgetsAux, hm, hwm, ihr, List.filter_cons]
    · simp [sendEventsToWidgetsAux, hm, ihr, List.filter_cons]

/-! ### C1 -/

/-- C1: from any store state, after `setWidgetPersistence(A, true)` then
`setWidgetPersistence(B, true)` with `A ≠ B`, `getPersistentWidgetId()`
returns `B` and `getWidgetPersistence(A)` returns `false`; moreover at any
observable store state at most one widget id holds persistence (any two ids
`i`, `j` for which `getWidgetPersistence` returns `true` are equal). -/
theorem c1_persistence_replaces (s t : Store) (A B i j : String) (hAB : A ≠ B)
    (hi : (getWidgetPersistence t i).ret = true)
    (hj : (getWidgetPersistence t j).ret = true) :
    (getPersistentWidgetId
      (setWidgetPersistence (setWidgetPersistence s (some A) true).store (some B) true).store).ret
      = some B ∧
    (getWidgetPersistence
      (setWidgetPersistence (setWidgetPersistence s (some A) true).store (some B) true).store
        A).ret = false ∧
    i = j := by
  have h2 := setWidgetPersistence_true_persistentWidgetId
    (setWidgetPersistence s (some A) true).store B
  refine ⟨by simpa [getPersistentWidgetId] using h2, ?_, ?_⟩
  · simp [getWidgetPersistence, h2]
    exact fun h => hAB h.symm
  · simp [getWidgetPersistence] at hi hj
    rw [hi] at hj
    exact Option.some_injective _ hj

/-- Witness for C1 at `s := initialStore`, `A := "a"`, `B := "b"`,
`t` the store where `"b"` persists, `i := j := "b"`. -/
theorem c1_witness :
    (("a" : String) ≠ "b") ∧
    ((getWidgetPersistence (setWidgetPersistence initialStore (some "b") true).store "b").ret
      = true) ∧
    ((getPersistentWidgetId
        (setWidgetPersistence (setWidgetPersistence initialStore (some "a") true).store
          (some "b") true).store).ret = some "b" ∧
      (getWidgetPersistence
        (setWidgetPersistence (setWidgetPersistence initialStore (some "a") true).store
          (some "b") true).store "a").ret = false ∧
      ("b" : String) = "b") :=
  ⟨by decide, by decide,
    c1_persistence_replaces initialStore
      (setWidgetPersistence initialStore (some "b") true).store
      "a" "b" "b" "b" (by decide) (by decide) (by decide)⟩

/-! ### C2 -/

/-- C2 (amended): provided every widget whose capability/room check passes
has a bound messaging channel, `sendEventsToWidgets` completes without a
throw and the sends performed are exactly, in iteration order, one
`sendEvent` per tracked widget whose capability list contains the event's
type and whose room scope is falsy (absent or the empty string) or equal to
the event's room id; with duplicate-free map keys each such widget is sent
to exactly once (the recipient list has no duplicates). -/
theorem c2_forwarding_amended (s : Store) (ev : MatrixEvent) (state : Bool)
    (hwf : (s.capsByWidgetId.map Prod.fst).Nodup)
    (hch : ∀ p ∈ s.capsByWidgetId, widgetMatches s ev p.1 p.2 = true →
      (alGet s.widgetMessagingByWidgetId p.1).isSome = true) :
    (sendEventsToWidgets s ev state).ret.2 = none ∧
    (sendEventsToWidgets s ev state).ret.1 =
      ((s.capsByWidgetId.filter fun p => widgetMatches s ev p.1 p.2).map
        fun p => ⟨p.1, ev, state, ev.roomId⟩) ∧
    ((sendEventsToWidgets s ev state).ret.1.map Send.widgetId).Nodup := by
  have h := sendEventsToWidgetsAux_complete s ev state s.capsByWidgetId hch
  have hsub : ((s.capsByWidgetId.filter fun p => widgetMatches s ev p.1 p.2).map
      Prod.fst).Nodup :=
    hwf.sublist ((List.filter_sublist _).map Prod.fst)
  refine ⟨by simp [sendEventsToWidgets, h], by simp [sendEventsToWidgets, h], ?_⟩
  simpa [sendEventsToWidgets, h, List.map_map, Function.comp] using hsub

/-- Counterexample to C2 as stated: a widget whose room scope is the empty
string.  The empty string is falsy in JS, so the code forwards the event to
`"w1"` although `"w1"`'s room scope is present and differs from the event's
room id — contradicting "forwards if and only if the room scope is either
absent or equal to the event's room id". -/
theorem c2_counterexample :
    ((sendEventsToWidgets ⟨none, [("w1", ["t"])], [("w1", ⟨none⟩)], [("w1", "")]⟩
        ⟨"t", some "room2", none⟩ true).ret.1.map Send.widgetId = ["w1"]) ∧
    alGet (Store.mk none [("w1", ["t"])] [("w1", ⟨none⟩)] [("w1", "")]).roomIdByWidgetId "w1"
      ≠ none ∧
    alGet (Store.mk none [("w1", ["t"])] [("w1", ⟨none⟩)] [("w1", "")]).roomIdByWidgetId "w1"
      ≠ some "room2" := by
  decide

/-- Witness for C2 (amended) at the spec's own example: `"w1"` has
capability `m.room.message`, room scope `room1`, and a bound channel; an
event of that type in `room1` is forwarded to `"w1"` exactly once, while
`"w2"` (different capability) receives nothing. -/
theorem c2_witness :
    ((((Store.mk none [("w1", ["m.room.message"]), ("w2", ["other"])]
          [("w1", ⟨none⟩)] [("w1", "room1")]).capsByWidgetId.map Prod.fst).Nodup) ∧
      (∀ p ∈ (Store.mk none [("w1", ["m.room.message"]), ("w2", ["other"])]
          [("w1", ⟨none⟩)] [("w1", "room1")]).capsByWidgetId,
        widgetMatches (Store.mk none [("w1", ["m.room.message"]), ("w2", ["other"])]
          [("w1", ⟨none⟩)] [("w1", "room1")]) ⟨"m.room.message", some "room1", none⟩ p.1 p.2
            = true →
        (alGet (Store.mk none [("w1", ["m.room.message"]), ("w2", ["other"])]
          [("w1", ⟨none⟩)] [("w1", "room1")]).widgetMessagingByWidgetId p.1).isSome = true)) ∧
    ((sendEventsToWidgets (Store.mk none [("w1", ["m.room.message"]), ("w2", ["other"])]
        [("w1", ⟨none⟩)] [("w1", "room1")]) ⟨"m.room.message", some "room1", none⟩
        true).ret.2 = none ∧
      (sendEventsToWidgets (Store.mk none [("w1", ["m.room.message"]), ("w2", ["other"])]
        [("w1", ⟨none⟩)] [("w1", "room1")]) ⟨"m.room.message", some "room1", none⟩
        true).ret.1 =
        (((Store.mk none [("w1", ["m.room.message"]), ("w2", ["other"])]
          [("w1", ⟨none⟩)] [("w1", "room1")]).capsByWidgetId.filter fun p =>
            widgetMatches (Store.mk none [("w1", ["m.room.message"]), ("w2", ["other"])]
              [("w1", ⟨none⟩)] [("w1", "room1")]) ⟨"m.room.message", some "room1", none⟩
              p.1 p.2).map
          fun p => ⟨p.1, ⟨"m.room.message", some "room1", none⟩, true, some "room1"⟩) ∧
      ((sendEventsToWidgets (Store.mk none [("w1", ["m.room.message"]), ("w2", ["other"])]
        [("w1", ⟨none⟩)] [("w1", "room1")]) ⟨"m.room.message", some "room1", none⟩
        true).ret.1.map Send.widgetId).Nodup) :=
  ⟨⟨by decide, by decide⟩,
    c2_forwarding_amended
      (Store.mk none [("w1", ["m.room.message"]), ("w2", ["other"])]
        [("w1", ⟨none⟩)] [("w1", "room1")])
      ⟨"m.room.message", some "room1", none⟩ true (by decide) (by decide)⟩

/-! ### C3 -/

/-- Counterexample to C3 as stated: the channel-close call is not the only
failure path.  With `"w1"` tracked with a matching capability but no bound
messaging channel, `sendEventsToWidgets` evaluates
`this._widgetMessagingByWidgetId["w1"].sendEvent(...)` on `undefined` and a
`TypeError` escapes the public operation uncaught. -/
theorem c3_counterexample :
    (sendEventsToWidgets ⟨none, [("w1", ["t"])], [], []⟩ ⟨"t", some "r", none⟩
      true).ret.2 ≠ none := by
  decide

/-- C3 (amended): query and mutation operations never throw — unknown
widget ids yield absent (`undefined`) or `false` results, and
`delWidgetMessaging` on an unknown id does nothing — and the channel-close
failure inside `delWidgetMessaging` is caught internally, the removal still
completing with its `update` emit.  The forwarding operation
`sendEventsToWidgets`, however, is exception-free only when every
capability-and-scope-matching widget has a bound messaging channel (it
throws a `TypeError` otherwise, as the counterexample shows). -/
theorem c3_totality_amended (s : Store) (w w2 cap : String) (wm : WidgetMessaging)
    (ev : MatrixEvent) (state : Bool)
    (hcaps : alGet s.capsByWidgetId w = none)
    (hmsg : alGet s.widgetMessagingByWidgetId w = none)
    (hroom : alGet s.roomIdByWidgetId w = none)
    (hpers : s.persistentWidgetId ≠ some w)
    (hbound : alGet s.widgetMessagingByWidgetId w2 = some wm)
    (hch : ∀ p ∈ s.capsByWidgetId, widgetMatches s ev p.1 p.2 = true →
      (alGet s.widgetMessagingByWidgetId p.1).isSome = true) :
    (widgetHasCapability s w cap).ret = none ∧
    (getWidgetMessaging s w).ret = none ∧
    (getRoomId s w).ret = none ∧
    (getWidgetPersistence s w).ret = false ∧
    (delWidgetMessaging s w).store = s ∧
    (delWidgetMessaging s w).emits = [] ∧
    alGet (delWidgetMessaging s w2).store.widgetMessagingByWidgetId w2 = none ∧
    (delWidgetMessaging s w2).emits = ["update"] ∧
    (sendEventsToWidgets s ev state).ret.2 = none := by
  refine ⟨?_, ?_, ?_, ?_, ?_, ?_, ?_, ?_, ?_⟩
  · simp [widgetHasCapability, hcaps]
  · simp [getWidgetMessaging, hmsg]
  · simp [getRoomId, hroom]
  · simp [getWidgetPersistence, hpers]
  · simp [delWidgetMessaging, hmsg]
  · simp [delWidgetMessaging, hmsg]
  · simp [delWidgetMessaging, hbound, alGet_alDel_self]
  · simp [delWidgetMessaging, hbound]
  · simp [sendEventsToWidgets, sendEventsToWidgetsAux_complete s ev state _ hch]

/-- Witness for C3 (amended): `"w"` is unknown everywhere and not
persistent; `"w2"` is tracked with a matching capability, a bound channel
whose `stop()` throws, and no room scope. -/
theorem c3_witness :
    (alGet (Store.mk (some "p") [("w2", ["t"])] [("w2", ⟨some "boom"⟩)]
        []).capsByWidgetId "w" = none ∧
      alGet (Store.mk (some "p") [("w2", ["t"])] [("w2", ⟨some "boom"⟩)]
        []).widgetMessagingByWidgetId "w" = none ∧
      alGet (Store.mk (some "p") [("w2", ["t"])] [("w2", ⟨some "boom"⟩)]
        []).roomIdByWidgetId "w" = none ∧
      (Store.mk (some "p") [("w2", ["t"])] [("w2", ⟨some "boom"⟩)]
        []).persistentWidgetId ≠ some "w" ∧
      alGet (Store.mk (some "p") [("w2", ["t"])] [("w2", ⟨some "boom"⟩)]
        []).widgetMessagingByWidgetId "w2" = some ⟨some "boom"⟩ ∧
      (∀ p ∈ (Store.mk (some "p") [("w2", ["t"])] [("w2", ⟨some "boom"⟩)]
          []).capsByWidgetId,
        widgetMatches (Store.mk (some "p") [("w2", ["t"])] [("w2", ⟨some "boom"⟩)] [])
          ⟨"t", some "r", none⟩ p.1 p.2 = true →
        (alGet (Store.mk (some "p") [("w2", ["t"])] [("w2", ⟨some "boom"⟩)]
          []).widgetMessagingByWidgetId p.1).isSome = true)) ∧
    ((widgetHasCapability (Store.mk (some "p") [("w2", ["t"])] [("w2", ⟨some "boom"⟩)] [])
        "w" "c").ret = none ∧
      (getWidgetMessaging (Store.mk (some "p") [("w2", ["t"])] [("w2", ⟨some "boom"⟩)] [])
        "w").ret = none ∧
      (getRoomId (Store.mk (some "p") [("w2", ["t"])] [("w2", ⟨some "boom"⟩)] [])
        "w").ret = none ∧
      (getWidgetPersistence (Store.mk (some "p") [("w2", ["t"])] [("w2", ⟨some "boom"⟩)] [])
        "w").ret = false ∧
      (delWidgetMessaging (Store.mk (some "p") [("w2", ["t"])] [("w2", ⟨some "boom"⟩)] [])
        "w").store = Store.mk (some "p") [("w2", ["t"])] [("w2", ⟨some "boom"⟩)] [] ∧
      (delWidgetMessaging (Store.mk (some "p") [("w2", ["t"])] [("w2", ⟨some "boom"⟩)] [])
        "w").emits = [] ∧
      alGet (delWidgetMessaging (Store.mk (some "p") [("w2", ["t"])]
        [("w2", ⟨some "boom"⟩)] []) "w2").store.widgetMessagingByWidgetId "w2" = none ∧
      (delWidgetMessaging (Store.mk (some "p") [("w2", ["t"])] [("w2", ⟨some "boom"⟩)] [])
        "w2").emits = ["update"] ∧
      (sendEventsToWidgets (Store.mk (some "p") [("w2", ["t"])] [("w2", ⟨some "boom"⟩)] [])
        ⟨"t", some "r", none⟩ true).ret.2 = none) :=
  ⟨⟨by decide, by decide, by decide, by decide, by decide, by decide⟩,
    c3_totality_amended
      (Store.mk (some "p") [("w2", ["t"])] [("w2", ⟨some "boom"⟩)] [])
      "w" "w2" "c" ⟨some "boom"⟩ ⟨"t", some "r", none⟩ true
      (by decide) (by decide) (by decide) (by decide) (by decide) (by decide)⟩

/-! ### C4 -/

/-- C4: `delWidgetMessaging` on an id with a bound channel whose `stop()`
throws still completes the removal — afterwards `getWidgetMessaging`
returns `undefined`, exactly one `update` is emitted, and the failure is
logged (the catch block swallows it, so nothing propagates); on an id with
no bound channel it changes nothing and emits nothing. -/
theorem c4_del_messaging_error_handling (s : Store) (w : String) (wm : WidgetMessaging)
    (msg : String) (s2 : Store) (w2 : String)
    (hbound : alGet s.widgetMessagingByWidgetId w = some wm)
    (herr : wm.stopError = some msg)
    (hnone : alGet s2.widgetMessagingByWidgetId w2 = none) :
    (getWidgetMessaging (delWidgetMessaging s w).store w).ret = none ∧
    (delWidgetMessaging s w).emits = ["update"] ∧
    (delWidgetMessaging s w).logs
      = ["Failed to stop listening for widgetMessaging events " ++ msg] ∧
    (delWidgetMessaging s2 w2).store = s2 ∧
    (delWidgetMessaging s2 w2).emits = [] := by
  refine ⟨?_, ?_, ?_, ?_, ?_⟩
  · simp [delWidgetMessaging, hbound, getWidgetMessaging, alGet_alDel_self]
  · simp [delWidgetMessaging, hbound]
  · simp [delWidgetMessaging, hbound, herr]
  · simp [delWidgetMessaging, hnone]
  · simp [delWidgetMessaging, hnone]

/-- Witness for C4: `"w1"` bound to a channel whose `stop()` throws with
message `boom`; `"x"` unbound in the fresh store. -/
theorem c4_witness :
    (alGet (Store.mk none [] [("w1", ⟨some "boom"⟩)] []).widgetMessagingByWidgetId "w1"
        = some ⟨some "boom"⟩ ∧
      (WidgetMessaging.mk (some "boom")).stopError = some "boom" ∧
      alGet initialStore.widgetMessagingByWidgetId "x" = none) ∧
    ((getWidgetMessaging (delWidgetMessaging
        (Store.mk none [] [("w1", ⟨some "boom"⟩)] []) "w1").store "w1").ret = none ∧
      (delWidgetMessaging (Store.mk none [] [("w1", ⟨some "boom"⟩)] []) "w1").emits
        = ["update"] ∧
      (delWidgetMessaging (Store.mk none [] [("w1", ⟨some "boom"⟩)] []) "w1").logs
        = ["Failed to stop listening for widgetMessaging events " ++ "boom"] ∧
      (delWidgetMessaging initialStore "x").store = initialStore ∧
      (delWidgetMessaging initialStore "x").emits = []) :=
  ⟨⟨by decide, by decide, by decide⟩,
    c4_del_messaging_error_handling (Store.mk none [] [("w1", ⟨some "boom"⟩)] [])
      "w1" ⟨some "boom"⟩ "boom" initialStore "x" (by decide) (by decide) (by decide)⟩

/-! ### C5 -/

/-- C5: `destroyPersistentWidget()` called while `W` is the persistent
widget clears persistence and removes `W`'s messaging channel, capability
set and room scope, all in the one call (the id is captured once at call
start, before persistence is cleared). -/
theorem c5_destroy_persistent_widget (s : Store) (W : String)
    (hp : s.persistentWidgetId = some W) :
    (destroyPersistentWidget s).store.persistentWidgetId = none ∧
    alGet (destroyPersistentWidget s).store.widgetMessagingByWidgetId W = none ∧
    alGet (destroyPersistentWidget s).store.capsByWidgetId W = none ∧
    alGet (destroyPersistentWidget s).store.roomIdByWidgetId W = none := by
  cases hm : alGet s.widgetMessagingByWidgetId W with
  | none =>
    simp [destroyPersistentWidget, hp, jsKeyOfNullable, setWidgetPersistence,
      delWidgetMessaging, hm, delWidgetCapabilities, delRoomId, alGet_alDel_self]
  | some wm =>
    simp [destroyPersistentWidget, hp, jsKeyOfNullable, setWidgetPersistence,
      delWidgetMessaging, hm, delWidgetCapabilities, delRoomId, alGet_alDel_self]

/-- Witness for C5: `"w1"` persistent with capabilities, a room scope and a
bound channel; after the call all four facets are gone. -/
theorem c5_witness :
    ((Store.mk (some "w1") [("w1", ["t"])] [("w1", ⟨none⟩)]
        [("w1", "room1")]).persistentWidgetId = some "w1") ∧
    ((destroyPersistentWidget (Store.mk (some "w1") [("w1", ["t"])] [("w1", ⟨none⟩)]
        [("w1", "room1")])).store.persistentWidgetId = none ∧
      alGet (destroyPersistentWidget (Store.mk (some "w1") [("w1", ["t"])] [("w1", ⟨none⟩)]
        [("w1", "room1")])).store.widgetMessagingByWidgetId "w1" = none ∧
      alGet (destroyPersistentWidget (Store.mk (some "w1") [("w1", ["t"])] [("w1", ⟨none⟩)]
        [("w1", "room1")])).store.capsByWidgetId "w1" = none ∧
      alGet (destroyPersistentWidget (Store.mk (some "w1") [("w1", ["t"])] [("w1", ⟨none⟩)]
        [("w1", "room1")])).store.roomIdByWidgetId "w1" = none) :=
  ⟨by decide,
    c5_destroy_persistent_widget
      (Store.mk (some "w1") [("w1", ["t"])] [("w1", ⟨none⟩)] [("w1", "room1")])
      "w1" (by decide)⟩

/-! ### C6 -/

/-- C6: `stop()` empties the capability, messaging and room-scope maps but
leaves the persistent-widget-id pointer exactly as it was. -/
theorem c6_stop_clears_maps_keeps_persistence (s : Store) :
    (stop s).store.capsByWidgetId = [] ∧
    (stop s).store.widgetMessagingByWidgetId = [] ∧
    (stop s).store.roomIdByWidgetId = [] ∧
    (stop s).store.persistentWidgetId = s.persistentWidgetId :=
  ⟨rfl, rfl, rfl, rfl⟩

/-! ### C7 -/

/-- C7: `setWidgetPersistence(X, false)` when `X` is not the current holder
leaves `getPersistentWidgetId()` unchanged. -/
theorem c7_clear_non_holder_noop (s : Store) (X : String)
    (hX : (getWidgetPersistence s X).ret = false) :
    (getPersistentWidgetId (setWidgetPersistence s (some X) false).store).ret
      = (getPersistentWidgetId s).ret := by
  simp [getWidgetPersistence] at hX
  simp [setWidgetPersistence, getPersistentWidgetId, hX]

/-- Witness for C7 at the fresh store and id `"x"`. -/
theorem c7_witness :
    (getWidgetPersistence initialStore "x").ret = false ∧
    (getPersistentWidgetId (setWidgetPersistence initialStore (some "x") false).store).ret
      = (getPersistentWidgetId initialStore).ret :=
  ⟨by decide, c7_clear_non_holder_noop initialStore "x" (by decide)⟩

/-! ### C8 -/

/-- C8: every call to `setWidgetPersistence`, for every id (including the
raw `null` value) and flag, emits exactly one `update` — including calls
that change nothing. -/
theorem c8_set_persistence_always_emits (s : Store) (widgetId : Option String) (val : Bool) :
    (setWidgetPersistence s widgetId val).emits = ["update"] :=
  rfl

/-! ### C9 -/

/-- Counterexample to C9 as stated: on the fresh store, `"w"` has no
capability set, and `widgetHasCapability("w", "c")` returns `undefined`
(the absent lookup result, which JS `&&` passes through) — not the boolean
value `false` the claim requires. -/
theorem c9_counterexample :
    (widgetHasCapability initialStore "w" "c").ret ≠ some false ∧
    (widgetHasCapability initialStore "w" "c").ret = none := by
  decide

/-- C9 (amended): for every widget id with no registered capability set,
`widgetHasCapability` returns `undefined` (a falsy value, so it tests as
false), not the boolean value `false`. -/
theorem c9_unknown_id_amended (s : Store) (w cap : String)
    (h : alGet s.capsByWidgetId w = none) :
    (widgetHasCapability s w cap).ret = none ∧
    (widgetHasCapability s w cap).ret ≠ some false := by
  simp [widgetHasCapability, h]

/-- Witness for C9 (amended) on the fresh store. -/
theorem c9_witness :
    alGet initialStore.capsByWidgetId "w" = none ∧
    ((widgetHasCapability initialStore "w" "c").ret = none ∧
      (widgetHasCapability initialStore "w" "c").ret ≠ some false) :=
  ⟨by decide, c9_unknown_id_amended initialStore "w" "c" (by decide)⟩

/-! ### C10 -/

/-- C10: the five query operations leave the store unchanged and emit
nothing, and repeating a query (running it again on the store it returned)
yields the same result. -/
theorem c10_queries_are_pure (s : Store) (w cap : String) :
    (getWidgetPersistence s w).store = s ∧ (getWidgetPersistence s w).emits = [] ∧
    (getPersistentWidgetId s).store = s ∧ (getPersistentWidgetId s).emits = [] ∧
    (widgetHasCapability s w cap).store = s ∧ (widgetHasCapability s w cap).emits = [] ∧
    (getWidgetMessaging s w).store = s ∧ (getWidgetMessaging s w).emits = [] ∧
    (getRoomId s w).store = s ∧ (getRoomId s w).emits = [] ∧
    (getWidgetPersistence (getWidgetPersistence s w).store w).ret
      = (getWidgetPersistence s w).ret ∧
    (getPersistentWidgetId (getPersistentWidgetId s).store).ret
      = (getPersistentWidgetId s).ret ∧
    (widgetHasCapability (widgetHasCapability s w cap).store w cap).ret
      = (widgetHasCapability s w cap).ret ∧
    (getWidgetMessaging (getWidgetMessaging s w).store w).ret
      = (getWidgetMessaging s w).ret ∧
    (getRoomId (getRoomId s w).store w).ret = (getRoomId s w).ret := by
  have hc : (widgetHasCapability s w cap).store = s ∧
      (widgetHasCapability s w cap).emits = [] := by
    cases h : alGet s.capsByWidgetId w <;> simp [widgetHasCapability, h]
  refine ⟨rfl, rfl, rfl, rfl, hc.1, hc.2, rfl, rfl, rfl, rfl, rfl, rfl, ?_, rfl, rfl⟩
  rw [hc.1]
